import Mathlib

/-!
Shallow embedding of `bowtie/_commands.py`: the result taxonomy, the
comparison/aggregation algorithm and the decode paths of the command
protocol. Python dictionaries arriving from the wire are modelled by
records whose `Option` fields record key presence; constructor keyword
errors (`TypeError`) and missing-key errors (`KeyError`) are modelled by
`Except DecodeErr`.
-/

set_option autoImplicit false

namespace Bowtie

/-- Errors raised while constructing values from decoded payloads:
`typeError` models Python's `TypeError` (unexpected or missing keyword
argument), `keyError` models a missing dictionary key. -/
inductive DecodeErr where
  | typeError
  | keyError
deriving DecidableEq

/-- Counters of non-passing outcomes, mirroring the attrs class
`Unsuccessful` (fields `failed`, `errored`, `skipped`, each defaulting
to 0). -/
structure Unsuccessful where
  failed : Nat := 0
  errored : Nat := 0
  skipped : Nat := 0
deriving DecidableEq

/-- Pointwise addition, mirroring `Unsuccessful.__add__`. -/
def Unsuccessful.add (a b : Unsuccessful) : Unsuccessful :=
  ⟨a.failed + b.failed, a.errored + b.errored, a.skipped + b.skipped⟩

instance : Add Unsuccessful := ⟨Unsuccessful.add⟩

/-- `Unsuccessful.total`: `errored + failed + skipped`. -/
def Unsuccessful.total (u : Unsuccessful) : Nat :=
  u.errored + u.failed + u.skipped

/-- The `context` dictionary carried by an errored test or case; only its
optional `"message"` entry is ever read (`ErroredTest.reason`). -/
structure ErrContext where
  message : Option String := none
deriving DecidableEq

/-- The tagged union of per-test outcomes: `TestResult` (a plain
valid/invalid verdict), `SkippedTest` and `ErroredTest`. -/
inductive AnyTestResult where
  | result (valid : Bool)
  | skippedTest (message : Option String) (issue_url : Option String)
  | erroredTest (context : ErrContext)
deriving DecidableEq

/-- The `skipped` attribute: hard-coded `True` on `SkippedTest`, `False`
on `TestResult` and `ErroredTest`. -/
def AnyTestResult.skipped : AnyTestResult → Bool
  | .skippedTest _ _ => true
  | _ => false

/-- The `errored` attribute: hard-coded `True` on `ErroredTest`, `False`
on `TestResult` and `SkippedTest`. -/
def AnyTestResult.errored : AnyTestResult → Bool
  | .erroredTest _ => true
  | _ => false

/-- The `valid` attribute of a plain `TestResult`.  In the source only
`TestResult` has this attribute; every access is guarded by
`not skipped and not errored`, which forces the `result` variant, so the
values returned on the other variants are never reached. -/
def AnyTestResult.valid : AnyTestResult → Bool
  | .result v => v
  | .skippedTest _ _ => false
  | .erroredTest _ => false

/-- `SkippedTest.in_skipped_case()`. -/
def SkippedTest.in_skipped_case : AnyTestResult :=
  .skippedTest (some "All tests in this test case were skipped.") none

/-- `ErroredTest.in_errored_case()`. -/
def ErroredTest.in_errored_case : AnyTestResult :=
  .erroredTest ⟨some "All tests in this test case errored."⟩

/-- A per-test entry inside a `Run` response's `results` array, as a
dictionary: each `Option` field records whether the key is present. -/
structure TestPayload where
  skipped : Option Bool := none
  errored : Option Bool := none
  valid : Option Bool := none
  message : Option String := none
  issue_url : Option String := none
  context : Option ErrContext := none
deriving DecidableEq

/-- `TestResult.from_dict`: pops `skipped` (defaulting to false), then
`errored`, dispatching in that order; the chosen constructor receives the
remaining keys, so a leftover key it does not declare raises `TypeError`,
and the plain branch reads `data["valid"]` (raising `KeyError` when
absent) while ignoring any other leftover keys. -/
def TestResult.from_dict (data : TestPayload) : Except DecodeErr AnyTestResult :=
  if data.skipped.getD false then
    if data.errored.isSome || data.valid.isSome || data.context.isSome then
      .error .typeError
    else
      .ok (.skippedTest data.message data.issue_url)
  else if data.errored.getD false then
    if data.valid.isSome || data.message.isSome || data.issue_url.isSome then
      .error .typeError
    else
      .ok (.erroredTest (data.context.getD {}))
  else
    match data.valid with
    | some v => .ok (.result v)
    | none => .error .keyError

/-- The attrs class `CaseResult`: fields `implementation`, `seq`,
`results`, `expected`. -/
structure CaseResult where
  implementation : String
  seq : Int
  results : List AnyTestResult
  expected : List (Option Bool)
deriving DecidableEq

/-- `CaseResult.compare()`: zips `results` with `expected` positionally
and marks a pair failed iff the test is neither skipped nor errored, the
expected value is not `None`, and it differs from the test's `valid`. -/
def CaseResult.compare (c : CaseResult) : List (AnyTestResult × Bool) :=
  (c.results.zip c.expected).map fun p =>
    (p.1, !p.1.skipped && !p.1.errored && p.2.isSome && p.2 != some p.1.valid)

/-- `CaseResult.failed`: `any(failed for _, failed in self.compare())`. -/
def CaseResult.failed (c : CaseResult) : Bool :=
  c.compare.any fun p => p.2

/-- `CaseResult.unsuccessful()`, translated with Python's scoping kept
intact: the loop target `failed` in `for test, failed in self.compare()`
rebinds the same variable that was initialised with
`skipped = errored = failed = 0`, so on each iteration `failed` first
becomes the pair's boolean (modelled as 0 or 1) and `failed += 1` bumps
that rebound value; the state triple is `(skipped, errored, failed)`. -/
def CaseResult.unsuccessful (c : CaseResult) : Unsuccessful :=
  let fin := c.compare.foldl
    (fun (acc : Nat × Nat × Nat) p =>
      let failed : Nat := if p.2 then 1 else 0
      if p.1.skipped then (acc.1 + 1, acc.2.1, failed)
      else if p.1.errored then (acc.1, acc.2.1 + 1, failed)
      else if failed ≠ 0 then (acc.1, acc.2.1, failed + 1)
      else (acc.1, acc.2.1, failed))
    (0, 0, 0)
  ⟨fin.2.2, fin.2.1, fin.1⟩

/-- What the spec and the surrounding code intend `unsuccessful()` to
compute: `skipped`/`errored`/`failed` each count the pairs of `compare()`
in their category. -/
def CaseResult.unsuccessfulIntended (c : CaseResult) : Unsuccessful :=
  ⟨(c.compare.filter fun p => !p.1.skipped && !p.1.errored && p.2).length,
   (c.compare.filter fun p => !p.1.skipped && p.1.errored).length,
   (c.compare.filter fun p => p.1.skipped).length⟩

/-- The attrs class `CaseErrored`: fields `expected`, `implementation`,
`seq`, `context`, `caught` (default `True`); `results` is synthesized,
see `CaseErrored.results`. -/
structure CaseErrored where
  expected : List (Option Bool)
  implementation : String
  seq : Int
  context : ErrContext
  caught : Bool := true
deriving DecidableEq

/-- `CaseErrored.__attrs_post_init__`: one `ErroredTest.in_errored_case()`
per slot of `expected`. -/
def CaseErrored.results (c : CaseErrored) : List AnyTestResult :=
  c.expected.map fun _ => ErroredTest.in_errored_case

/-- `CaseErrored.unsuccessful()`: `Unsuccessful(errored=len(self.results))`. -/
def CaseErrored.unsuccessful (c : CaseErrored) : Unsuccessful :=
  ⟨0, c.results.length, 0⟩

/-- Class attributes of `CaseErrored`: `errored = True`. -/
def CaseErrored.errored (_ : CaseErrored) : Bool := true

/-- Class attributes of `CaseErrored`: `failed = False`. -/
def CaseErrored.failed (_ : CaseErrored) : Bool := false

/-- Class attributes of `CaseErrored`: `skipped = False`. -/
def CaseErrored.skipped (_ : CaseErrored) : Bool := false

/-- The attrs class `CaseSkipped`: fields `implementation`, `seq`,
`expected`, `message` (default `None`), `issue_url` (default `None`);
`results` is synthesized, see `CaseSkipped.results`. -/
structure CaseSkipped where
  implementation : String
  seq : Int
  expected : List (Option Bool)
  message : Option String := none
  issue_url : Option String := none
deriving DecidableEq

/-- `CaseSkipped.__attrs_post_init__`: one `SkippedTest.in_skipped_case()`
per slot of `expected`. -/
def CaseSkipped.results (c : CaseSkipped) : List AnyTestResult :=
  c.expected.map fun _ => SkippedTest.in_skipped_case

/-- `CaseSkipped.unsuccessful()`: `Unsuccessful(skipped=len(self.results))`. -/
def CaseSkipped.unsuccessful (c : CaseSkipped) : Unsuccessful :=
  ⟨0, 0, c.results.length⟩

/-- Class attributes of `CaseSkipped`: `errored = False`. -/
def CaseSkipped.errored (_ : CaseSkipped) : Bool := false

/-- Class attributes of `CaseSkipped`: `failed = False`. -/
def CaseSkipped.failed (_ : CaseSkipped) : Bool := false

/-- Class attributes of `CaseSkipped`: `skipped = True`. -/
def CaseSkipped.skipped (_ : CaseSkipped) : Bool := true

/-- The attrs class `Empty`: an implementation sent no response at all. -/
structure Empty where
  implementation : String
deriving DecidableEq

/-- Class attributes of `Empty`: `errored = True`. -/
def Empty.errored (_ : Empty) : Bool := true

/-- Class attributes of `Empty`: `failed = False`. -/
def Empty.failed (_ : Empty) : Bool := false

/-- Class attributes of `Empty`: `skipped = False`. -/
def Empty.skipped (_ : Empty) : Bool := false

/-- The tagged union of whole-case outcomes a `Run` response decodes
into. -/
inductive AnyCaseResult where
  | result (c : CaseResult)
  | caseErrored (c : CaseErrored)
  | caseSkipped (c : CaseSkipped)
deriving DecidableEq

/-- Whether a decoded `Run` outcome is a `CaseSkipped`. -/
def isCaseSkippedOutcome : Except DecodeErr AnyCaseResult → Bool
  | .ok (.caseSkipped _) => true
  | _ => false

/-- Whether a decoded `Run` outcome is a `CaseErrored`. -/
def isCaseErroredOutcome : Except DecodeErr AnyCaseResult → Bool
  | .ok (.caseErrored _) => true
  | _ => false

/-- Whether a decoded `Run` outcome is a plain `CaseResult`. -/
def isCaseResultOutcome : Except DecodeErr AnyCaseResult → Bool
  | .ok (.result _) => true
  | _ => false

/-- A parsed `Run` response payload as a dictionary.  `errored` and
`skipped` are consumed as named parameters of `_case_result` with default
`False`, so only their truth matters; the other fields record key
presence for the keyword-argument semantics of the chosen constructor. -/
structure RunResponse where
  errored : Bool := false
  skipped : Bool := false
  seq : Option Int := none
  results : Option (List TestPayload) := none
  context : Option ErrContext := none
  caught : Option Bool := none
  message : Option String := none
  issue_url : Option String := none
deriving DecidableEq

/-- `CaseResult.from_dict(data, implementation=…, expected=…)`: reads
`data["results"]` (raising `KeyError` when absent), decodes each entry
with `TestResult.from_dict`, then forwards the remaining keys to the
constructor, which declares only `seq` besides the keyword arguments
already supplied. -/
def CaseResult.from_dict (data : RunResponse) (implementation : String)
    (expected : List (Option Bool)) : Except DecodeErr CaseResult :=
  match data.results with
  | none => .error .keyError
  | some rs => do
    let results ← rs.mapM TestResult.from_dict
    match data.seq with
    | none => .error .typeError
    | some s =>
      if data.context.isSome || data.caught.isSome || data.message.isSome
          || data.issue_url.isSome then
        .error .typeError
      else
        .ok ⟨implementation, s, results, expected⟩

/-- `_case_result`: the `Run` response decoder.  `errored` is tested
first, then `skipped`; the matching constructor receives the remaining
keys plus the caller-supplied `implementation` and `expected`, and a
leftover key the constructor does not declare raises `TypeError`. -/
def _case_result (response : RunResponse) (implementation : String)
    (expected : List (Option Bool)) : Except DecodeErr AnyCaseResult :=
  if response.errored then
    if response.results.isSome || response.message.isSome
        || response.issue_url.isSome then
      .error .typeError
    else
      match response.seq, response.context with
      | some s, some ctx =>
        .ok (.caseErrored ⟨expected, implementation, s, ctx,
          response.caught.getD true⟩)
      | _, _ => .error .typeError
  else if response.skipped then
    if response.results.isSome || response.context.isSome
        || response.caught.isSome then
      .error .typeError
    else
      match response.seq with
      | some s =>
        .ok (.caseSkipped ⟨implementation, s, expected,
          response.message, response.issue_url⟩)
      | none => .error .typeError
  else
    (CaseResult.from_dict response implementation expected).map .result

/-- Fatal setup-phase failures while decoding a `Start` response. -/
inductive StartErr where
  | versionMismatch
  | implementationNotReady
deriving DecidableEq

/-- A parsed `Start` response payload: implementation metadata, the
declared protocol version, and an optional `ready` flag. -/
structure StartResponse where
  implementation : List (String × String)
  version : Int
  ready : Option Bool := none
deriving DecidableEq

/-- The attrs class `Started`: `implementation` metadata plus the
`version`, whose attrs validator calls `exceptions.VersionMismatch.check`
at construction. -/
structure Started where
  implementation : List (String × String)
  version : Int
deriving DecidableEq

/-- Modelled from the spec: `exceptions.VersionMismatch.check` lives in
`bowtie/exceptions.py`, which is not among these sources; the spec pins
the protocol version at 1 and makes any mismatch fatal
(`VersionMismatch`) before the value is usable. -/
def VersionMismatch.check (got : Int) : Except StartErr Unit :=
  if got = 1 then .ok () else .error .versionMismatch

/-- Decoding a `Start` response into a `Started` value: the `version`
validator from the source runs at construction.  Modelled from the spec:
the `ready` gate ("a `ready` flag (when present) must be true, else fatal
(ImplementationNotReady)") is enforced by harness code outside these
sources, so it is embedded here from the spec's words. -/
def Start.from_response (response : StartResponse) : Except StartErr Started := do
  VersionMismatch.check response.version
  match response.ready with
  | some false => .error .implementationNotReady
  | _ => .ok ⟨response.implementation, response.version⟩

/-- A JSON-like value, for the serializable views of a `TestCase`. -/
inductive JVal where
  | null
  | bool (b : Bool)
  | num (n : Int)
  | str (s : String)
  | arr (elements : List JVal)
  | obj (entries : List (String × JVal))

/-- Whether a `JVal` is JSON `null` (Python `None`). -/
def JVal.isNull : JVal → Bool
  | .null => true
  | _ => false

/-- The attrs class `Test`: `description`, `instance`, optional `comment`,
optional expected `valid`. -/
structure Test where
  description : String
  «instance» : JVal
  comment : Option String := none
  valid : Option Bool := none

/-- The attrs class `TestCase`: `description`, `schema`, the ordered
`tests`, optional `comment`, and a registry, modelled as its URI-to-raw-
contents entries. -/
structure TestCase where
  description : String
  schema : JVal
  tests : List Test
  comment : Option String := none
  registry : List (String × JVal) := []

/-- The dictionary `attrs.asdict` produces for one `Test` inside
`TestCase.serializable()`: the filter drops a `comment` that is `None`
(the filter recurses into nested attrs values), and `valid` serializes
`None` as JSON null. -/
def Test.serializable (t : Test) : List (String × JVal) :=
  [("description", .str t.description), ("instance", t.«instance»)]
    ++ (match t.comment with
        | none => []
        | some c => [("comment", .str c)])
    ++ [("valid", match t.valid with
        | none => .null
        | some b => .bool b)]

/-- `TestCase.serializable()`: `asdict` with a filter dropping the
`registry` key and any `None` comment, then re-adding a non-empty
registry flattened to raw contents. -/
def TestCase.serializable (c : TestCase) : List (String × JVal) :=
  [("description", .str c.description), ("schema", c.schema),
   ("tests", .arr (c.tests.map fun t => .obj t.serializable))]
    ++ (match c.comment with
        | none => []
        | some s => [("comment", .str s)])
    ++ (if c.registry.isEmpty then [] else [("registry", .obj c.registry)])

/-- The per-test strip applied by `without_expected_results()`: drop the
`valid` key and a `comment` key whose value is null. -/
def stripTest (entry : List (String × JVal)) : List (String × JVal) :=
  entry.filter fun kv => kv.1 != "valid" && (kv.1 != "comment" || !kv.2.isNull)

/-- `TestCase.without_expected_results()`: pops `tests` out of the
serializable view and re-inserts it (at the end, as Python dicts do) with
every test entry stripped by `stripTest`. -/
def TestCase.without_expected_results (c : TestCase) : List (String × JVal) :=
  (c.serializable.filter fun kv => kv.1 != "tests")
    ++ [("tests", .arr ((c.tests.map fun t => t.serializable).map
          fun e => .obj (stripTest e)))]

/-- C8: `Unsuccessful` addition is pointwise, associative and commutative
with `Unsuccessful()` (all counters zero) as identity, and `total` always
equals `failed + errored + skipped`. -/
theorem unsuccessful_monoid :
    (∀ a b c : Unsuccessful, a + b + c = a + (b + c)) ∧
    (∀ a b : Unsuccessful, a + b = b + a) ∧
    (∀ a : Unsuccessful, a + ({} : Unsuccessful) = a) ∧
    (∀ a : Unsuccessful, a.total = a.failed + a.errored + a.skipped) := by
  have hadd : ∀ a b : Unsuccessful,
      a + b = ⟨a.failed + b.failed, a.errored + b.errored,
        a.skipped + b.skipped⟩ := fun a b => rfl
  refine ⟨fun a b c => ?_, fun a b => ?_, fun a => rfl, fun a => ?_⟩
  · cases a; cases b; cases c
    simp only [hadd, Unsuccessful.mk.injEq]
    omega
  · cases a; cases b
    simp only [hadd, Unsuccessful.mk.injEq]
    omega
  · cases a
    simp only [Unsuccessful.total]
    omega

/-- C6: `CaseResult.failed` is true iff `compare()` yields at least one
failing pair; `CaseErrored`, `CaseSkipped` and `Empty` hard-code
`failed = False`, and `Empty` additionally hard-codes `errored = True`. -/
theorem failed_iff_failing_pair :
    (∀ c : CaseResult, c.failed = true ↔ ∃ p ∈ c.compare, p.2 = true) ∧
    (∀ e : CaseErrored, e.failed = false) ∧
    (∀ s : CaseSkipped, s.failed = false) ∧
    (∀ e : Empty, e.failed = false ∧ e.errored = true) := by
  refine ⟨fun c => ?_, fun _ => rfl, fun _ => rfl, fun _ => ⟨rfl, rfl⟩⟩
  simp [CaseResult.failed, List.any_eq_true]

/-- C10: when `results` and `expected` have different lengths, `compare()`
still succeeds and yields exactly `min` of the two lengths, silently
ignoring the surplus entries of the longer list. -/
theorem compare_truncates_to_min (c : CaseResult)
    (_h : c.results.length ≠ c.expected.length) :
    c.compare.length = min c.results.length c.expected.length := by
  simp [CaseResult.compare]

/-- Witness for `compare_truncates_to_min` at a one-result, two-expected
case. -/
theorem compare_truncates_to_min_witness :
    (CaseResult.compare ⟨"i", 0, [AnyTestResult.result true],
        [some true, none]⟩).length
      = min ([AnyTestResult.result true] : List AnyTestResult).length
          ([some true, none] : List (Option Bool)).length :=
  compare_truncates_to_min
    ⟨"i", 0, [AnyTestResult.result true], [some true, none]⟩ (by decide)

/-- C3 (divergence): on the spec's scenario — expected
`[true, false, null]`, results `[valid, valid, invalid]` — the code's
`unsuccessful()` returns all-zero counters because the loop target
`failed` shadows the counter of the same name, while the intended fold
(and the claim) give `failed = 1`. -/
theorem unsuccessful_loop_shadowing :
    CaseResult.unsuccessful ⟨"i", 0,
      [AnyTestResult.result true, AnyTestResult.result true,
       AnyTestResult.result false],
      [some true, some false, none]⟩ = ⟨0, 0, 0⟩ ∧
    CaseResult.unsuccessfulIntended ⟨"i", 0,
      [AnyTestResult.result true, AnyTestResult.result true,
       AnyTestResult.result false],
      [some true, some false, none]⟩ = ⟨1, 0, 0⟩ ∧
    (⟨0, 0, 0⟩ : Unsuccessful) ≠ ⟨1, 0, 0⟩ :=
  ⟨by decide, by decide, by decide⟩

/-- C1 (counterexample): a `Run` response with both `errored=true` and
`skipped=true` (plus the `seq` and `context` the constructor needs)
decodes to a `CaseErrored`, not to the `CaseSkipped` the claim
predicts. -/
theorem run_decode_both_flags_counterexample :
    _case_result ⟨true, true, some 0, none, some ⟨none⟩, none, none, none⟩
        "impl" []
      = .ok (.caseErrored ⟨[], "impl", 0, ⟨none⟩, true⟩) ∧
    isCaseSkippedOutcome
      (_case_result ⟨true, true, some 0, none, some ⟨none⟩, none, none, none⟩
        "impl" []) = false :=
  ⟨rfl, rfl⟩

/-- C1 (amended): `_case_result` tests `errored` before `skipped`, so
`errored=true` never yields a `CaseSkipped` or plain `CaseResult` (both
flags set gives `CaseErrored`); with `errored` false and `skipped` true a
well-formed payload gives `CaseSkipped`; with neither flag the payload is
decoded by `CaseResult.from_dict`. -/
theorem run_decode_errored_priority :
    (∀ (response : RunResponse) (impl : String)
        (expected : List (Option Bool)), response.errored = true →
      isCaseSkippedOutcome (_case_result response impl expected) = false ∧
      isCaseResultOutcome (_case_result response impl expected) = false) ∧
    (∀ (sk : Bool) (s : Int) (ctx : ErrContext) (caught : Option Bool)
        (impl : String) (expected : List (Option Bool)),
      _case_result ⟨true, sk, some s, none, some ctx, caught, none, none⟩
          impl expected
        = .ok (.caseErrored ⟨expected, impl, s, ctx, caught.getD true⟩)) ∧
    (∀ (s : Int) (message issue_url : Option String) (impl : String)
        (expected : List (Option Bool)),
      _case_result ⟨false, true, some s, none, none, none, message, issue_url⟩
          impl expected
        = .ok (.caseSkipped ⟨impl, s, expected, message, issue_url⟩)) ∧
    (∀ (response : RunResponse) (impl : String)
        (expected : List (Option Bool)),
      response.errored = false → response.skipped = false →
      _case_result response impl expected
        = (CaseResult.from_dict response impl expected).map
            AnyCaseResult.result) := by
  refine ⟨fun response impl expected h => ?_,
    fun sk s ctx caught impl expected => rfl,
    fun s message issue_url impl expected => rfl,
    fun response impl expected he hs => ?_⟩
  · unfold _case_result
    rw [if_pos h]
    constructor <;> (split <;> try rfl) <;> (split <;> rfl)
  · simp [_case_result, he, hs]

/-- Witness for `run_decode_errored_priority` at a both-flags payload. -/
theorem run_decode_errored_priority_witness :
    isCaseSkippedOutcome
      (_case_result ⟨true, true, some 0, none, some ⟨none⟩, none, none, none⟩
        "i" []) = false ∧
    isCaseResultOutcome
      (_case_result ⟨true, true, some 0, none, some ⟨none⟩, none, none, none⟩
        "i" []) = false :=
  run_decode_errored_priority.1
    ⟨true, true, some 0, none, some ⟨none⟩, none, none, none⟩ "i" [] rfl

/-- C5: a Start response with `version=1` and `ready=true` decodes to a
usable `Started`; any other version fails with `VersionMismatch`;
`ready=false` fails with `ImplementationNotReady`. -/
theorem start_decode_gates :
    (∀ impl : List (String × String),
      Start.from_response ⟨impl, 1, some true⟩ = .ok ⟨impl, 1⟩) ∧
    (∀ (impl : List (String × String)) (v : Int) (ready : Option Bool),
      v ≠ 1 →
      Start.from_response ⟨impl, v, ready⟩ = .error .versionMismatch) ∧
    (∀ impl : List (String × String),
      Start.from_response ⟨impl, 1, some false⟩
        = .error .implementationNotReady) := by
  refine ⟨fun impl => rfl, fun impl v ready h => ?_, fun impl => rfl⟩
  unfold Start.from_response VersionMismatch.check
  rw [if_neg h]
  rfl

/-- Witness for `start_decode_gates` at `version = 2`. -/
theorem start_decode_gates_witness :
    Start.from_response ⟨[], 2, none⟩ = .error .versionMismatch :=
  start_decode_gates.2.1 [] 2 none (by decide)

/-- C9 (counterexample): a per-test payload with both `skipped=true` and
`errored=true` does not decode to a `SkippedTest`: the popped `skipped`
dispatches there, but the leftover `errored` key is an unexpected keyword
argument for the `SkippedTest` constructor. -/
theorem test_decode_both_flags_counterexample :
    TestResult.from_dict ⟨some true, some true, none, none, none, none⟩
      = .error .typeError := rfl

/-- C9 (amended): per-test decoding checks `skipped` before `errored`; a
payload with `skipped=true` and otherwise only `message`/`issue_url`
decodes to `SkippedTest`, but if `errored` is also present the leftover
key raises `TypeError`; otherwise `errored=true` (with no leftover keys
of its own) decodes to `ErroredTest`; otherwise the payload decodes to a
plain `TestResult` carrying its `valid` value. -/
theorem test_decode_priority_amended :
    (∀ message issue_url : Option String,
      TestResult.from_dict ⟨some true, none, none, message, issue_url, none⟩
        = .ok (.skippedTest message issue_url)) ∧
    (∀ d : TestPayload, d.skipped.getD false = true →
      d.errored.isSome = true →
      TestResult.from_dict d = .error .typeError) ∧
    (∀ d : TestPayload, d.skipped.getD false = false →
      d.errored.getD false = true → d.valid = none → d.message = none →
      d.issue_url = none →
      TestResult.from_dict d = .ok (.erroredTest (d.context.getD ⟨none⟩))) ∧
    (∀ (d : TestPayload) (v : Bool), d.skipped.getD false = false →
      d.errored.getD false = false → d.valid = some v →
      TestResult.from_dict d = .ok (.result v)) := by
  refine ⟨fun message issue_url => rfl, fun d h1 h2 => ?_,
    fun d h1 h2 h3 h4 h5 => ?_, fun d v h1 h2 h3 => ?_⟩
  · simp [TestResult.from_dict, h1, h2]
  · simp [TestResult.from_dict, h1, h2, h3, h4, h5]
  · simp [TestResult.from_dict, h1, h2, h3]

/-- Witness for `test_decode_priority_amended` at an errored-only
payload carrying a context message. -/
theorem test_decode_priority_amended_witness :
    TestResult.from_dict ⟨none, some true, none, none, none,
        some ⟨some "boom"⟩⟩
      = .ok (.erroredTest ⟨some "boom"⟩) :=
  test_decode_priority_amended.2.2.1
    ⟨none, some true, none, none, none, some ⟨some "boom"⟩⟩ rfl rfl rfl rfl rfl

/-- C2: the pair `compare()` yields at index `i` is failed iff the test
there is neither skipped nor errored, the expected value is not `None`,
and it differs from the test's `valid`; in particular an expected `None`
never fails. -/
theorem compare_failure_rule (c : CaseResult) (i : Nat)
    (hi : i < c.results.length) (hj : i < c.expected.length)
    (hc : i < c.compare.length) :
    ((c.compare.get ⟨i, hc⟩).2 = true ↔
      ((c.results.get ⟨i, hi⟩).skipped = false ∧
       (c.results.get ⟨i, hi⟩).errored = false ∧
       c.expected.get ⟨i, hj⟩ ≠ none ∧
       c.expected.get ⟨i, hj⟩ ≠ some ((c.results.get ⟨i, hi⟩).valid))) ∧
    (c.expected.get ⟨i, hj⟩ = none → (c.compare.get ⟨i, hc⟩).2 = false) := by
  simp only [CaseResult.compare, List.get_eq_getElem, List.getElem_map,
    List.getElem_zip]
  constructor
  · simp [Bool.and_eq_true, Bool.not_eq_true', Option.isSome_iff_ne_none,
      bne_iff_ne, and_assoc]
  · intro h
    simp [h]

/-- Witness for `compare_failure_rule`: an expected `None` paired with an
invalid result is not a failure. -/
theorem compare_failure_rule_witness :
    ((CaseResult.compare ⟨"i", 0, [AnyTestResult.result false],
        [none]⟩).get ⟨0, by decide⟩).2 = false :=
  (compare_failure_rule ⟨"i", 0, [AnyTestResult.result false], [none]⟩ 0
    (by decide) (by decide) (by decide)).2 rfl

/-- C4 (counterexample): the decode path builds a `CaseResult` whose
`results` length follows the wire payload and can differ from the
caller-supplied `expected` — one decoded result against two expected
slots — and `compare()` then yields fewer pairs than `expected` has. -/
theorem case_result_length_mismatch_counterexample :
    _case_result ⟨false, false, some 0,
        some [⟨none, none, some true, none, none, none⟩],
        none, none, none, none⟩ "i" [some true, some false]
      = .ok (.result ⟨"i", 0, [AnyTestResult.result true],
          [some true, some false]⟩) ∧
    (CaseResult.results ⟨"i", 0, [AnyTestResult.result true],
        [some true, some false]⟩).length
      ≠ (CaseResult.expected ⟨"i", 0, [AnyTestResult.result true],
        [some true, some false]⟩).length ∧
    (CaseResult.compare ⟨"i", 0, [AnyTestResult.result true],
        [some true, some false]⟩).length
      ≠ (CaseResult.expected ⟨"i", 0, [AnyTestResult.result true],
        [some true, some false]⟩).length :=
  ⟨rfl, by decide, by decide⟩

/-- C4 (amended): `CaseErrored` and `CaseSkipped` synthesize `results` of
exactly `expected`'s length; for a `CaseResult` nothing enforces the
invariant, and `compare()` yields `min` of the two lengths — which equals
`expected`'s length exactly when the lengths agree. -/
theorem case_outcome_lengths_amended :
    (∀ e : CaseErrored, e.results.length = e.expected.length) ∧
    (∀ s : CaseSkipped, s.results.length = s.expected.length) ∧
    (∀ c : CaseResult,
      c.compare.length = min c.results.length c.expected.length) ∧
    (∀ c : CaseResult, c.results.length = c.expected.length →
      c.compare.length = c.expected.length) := by
  refine ⟨fun e => ?_, fun s => ?_, fun c => ?_, fun c h => ?_⟩
  · simp [CaseErrored.results]
  · simp [CaseSkipped.results]
  · simp [CaseResult.compare]
  · simp [CaseResult.compare, h]

/-- Witness for `case_outcome_lengths_amended` at equal lengths. -/
theorem case_outcome_lengths_amended_witness :
    (CaseResult.compare ⟨"i", 0, [AnyTestResult.result true],
        [none]⟩).length = ([none] : List (Option Bool)).length :=
  case_outcome_lengths_amended.2.2.2
    ⟨"i", 0, [AnyTestResult.result true], [none]⟩ (by decide)

/-- Popping `tests` and re-inserting it at the end leaves the lookup of
every other key unchanged. -/
theorem lookup_reinserted_tests_ne (l : List (String × JVal)) (x : JVal)
    (k : String) (hk : k ≠ "tests") :
    ((l.filter fun kv => kv.1 != "tests") ++ [("tests", x)]).lookup k
      = l.lookup k := by
  have hkb : (k == "tests") = false := beq_eq_false_iff_ne.mpr hk
  induction l with
  | nil => simp [List.lookup_cons, hkb]
  | cons a l ih =>
    obtain ⟨a1, a2⟩ := a
    by_cases ht : a1 = "tests"
    · subst ht
      simp only [List.filter_cons, bne_self_eq_false, List.lookup_cons, hkb]
      simpa using ih
    · have hfa : (a1 != "tests") = true := by
        simpa using ht
      simp only [List.filter_cons, hfa, if_true, List.cons_append,
        List.lookup_cons]
      cases hka : k == a1 <;> simp [hka, ih]

/-- Popping `tests` and re-inserting it at the end makes the `tests`
lookup find the re-inserted value. -/
theorem lookup_reinserted_tests (l : List (String × JVal)) (x : JVal) :
    ((l.filter fun kv => kv.1 != "tests") ++ [("tests", x)]).lookup "tests"
      = some x := by
  induction l with
  | nil => simp
  | cons a l ih =>
    obtain ⟨a1, a2⟩ := a
    by_cases ht : a1 = "tests"
    · subst ht
      simp only [List.filter_cons, bne_self_eq_false]
      simpa using ih
    · have hfa : (a1 != "tests") = true := by
        simpa using ht
      have htb : ("tests" == a1) = false :=
        beq_eq_false_iff_ne.mpr fun h => ht h.symm
      simp only [List.filter_cons, hfa, if_true, List.cons_append,
        List.lookup_cons, htb]
      exact ih

/-- C7: `without_expected_results()` strips the `valid` key from every
test entry and strips a null per-test comment, keeps the other per-test
keys with their values, and preserves every other key of the serializable
view, with `tests` re-bound to the stripped entries. -/
theorem without_expected_results_strips :
    (∀ t : Test, (stripTest t.serializable).lookup "valid" = none) ∧
    (∀ t : Test, t.comment = none →
      (stripTest t.serializable).lookup "comment" = none) ∧
    (∀ t : Test,
      (stripTest t.serializable).lookup "description"
          = some (.str t.description) ∧
      (stripTest t.serializable).lookup "instance" = some t.«instance» ∧
      ∀ s : String, t.comment = some s →
        (stripTest t.serializable).lookup "comment" = some (.str s)) ∧
    (∀ c : TestCase, c.without_expected_results.lookup "tests"
      = some (.arr (c.tests.map fun t => .obj (stripTest t.serializable)))) ∧
    (∀ (c : TestCase) (k : String), k ≠ "tests" →
      c.without_expected_results.lookup k = c.serializable.lookup k) := by
  refine ⟨fun t => ?_, fun t h => ?_, fun t => ⟨?_, ?_, fun s h => ?_⟩,
    fun c => ?_, fun c k hk => ?_⟩
  · rcases t with ⟨d, inst, cm, v⟩
    cases cm <;> cases v <;> rfl
  · rcases t with ⟨d, inst, cm, v⟩
    cases cm with
    | none => cases v <;> rfl
    | some s => exact absurd h (by simp)
  · rcases t with ⟨d, inst, cm, v⟩
    cases cm <;> cases v <;> rfl
  · rcases t with ⟨d, inst, cm, v⟩
    cases cm <;> cases v <;> rfl
  · rcases t with ⟨d, inst, cm, v⟩
    cases cm with
    | none => exact absurd h (by simp)
    | some s' =>
      cases h
      cases v <;> rfl
  · unfold TestCase.without_expected_results
    rw [lookup_reinserted_tests]
    simp [List.map_map, Function.comp]
  · exact lookup_reinserted_tests_ne _ _ k hk

/-- Witness for `without_expected_results_strips`: the `schema` key of a
concrete case survives the strip unchanged. -/
theorem without_expected_results_strips_witness :
    (TestCase.without_expected_results
        ⟨"case", .bool true, [], none, []⟩).lookup "schema"
      = (TestCase.serializable
        ⟨"case", .bool true, [], none, []⟩).lookup "schema" :=
  without_expected_results_strips.2.2.2.2
    ⟨"case", .bool true, [], none, []⟩ "schema" (by decide)

end Bowtie
